import Mathlib

/-!
Shallow embedding of the `EditorPage` browser-automation orchestrator from
`packages/calypso-e2e/src/lib/pages/editor-page.ts`.

The panel components (`EditorGutenbergComponent`, `EditorToolbarComponent`,
`EditorPublishPanelComponent`, `EditorNavSidebarComponent`,
`EditorSettingsSidebarComponent`, `NavbarComponent`), the Playwright `Page`
and the process environment (`envVariables.VIEWPORT_NAME`) are external to
the orchestrator; their observable behaviour is supplied by an environment
record `Env`.  Each `EditorPage` method is embedded as a function from `Env`
to a result record `Res` that carries the ordered list of UI interactions the
method issued (its trace) together with its outcome (`Except EditorError`).
Asynchronous waits that can expire (Playwright locator waits,
`waitForNavigation`, `waitForSelector`) are modelled by `Settle`: the wait
either settles with a value or rejects with a timeout; `Promise.race` picks
whichever source settles first, the scheduling choice being part of `Env`.
-/

/-- A UI interaction issued by the orchestrator, in program order.  Each
constructor corresponds to one awaited call on a panel component or on the
Playwright page in `editor-page.ts`. -/
inductive Act where
  | enterTitleField (text : String)
  | readTitleField
  | enterTextBody (text : String)
  | readTextBody
  | resetSelectedBlock
  | openBlockInserter
  | searchBlockInserter (name : String)
  | selectBlockInserterResult (name : String)
  | getSelectedBlockElementHandle (sel : String)
  | closeBlockInserter
  | closePublishPanel
  | closeNavSidebar
  | closeSettings
  | clickPublish
  | publishPanelPublish
  | clickTab (name : String)
  | expandSection (name : String)
  | openVisibilityOptions
  | selectVisibility (v : String) (password : Option String)
  | closeVisibilityOptions
  | openSchedule
  | setScheduleDetails (date : String)
  | closeSchedule
  | checkCategory (name : String)
  | enterTag (tag : String)
  | enterUrlSlug (slug : String)
  | switchToDraft
  | clickDialogOK
  | waitForSnackbar (text : String)
  | openNavSidebar
  | clickMySites
  | navSidebarExit
  | openMobilePreview
  | openDesktopPreview (target : String)
  | locateEditorIframe
  | consoleInfo (msg : String)
deriving DecidableEq, Repr

/-- Error taxonomy of the orchestrator (spec section 7).  Each constructor
stands for one `throw new Error(...)` site, or for a rejected bounded wait
(`timeout`), or for the JavaScript `URL` constructor throwing on a malformed
string (`malformedURL`). -/
inductive EditorError where
  | verificationMismatch (got expected : String)
  | surfaceNotFound
  | modeMismatch (current : String)
  | timeout
  | malformedURL
deriving DecidableEq, Repr

/-- Outcome of an awaited browser signal: it either settles with a value or
its bounded wait expires and the promise rejects. -/
inductive Settle (α : Type) where
  | value (a : α) : Settle α
  | timeout : Settle α
deriving DecidableEq, Repr

/-- Splits a character list at the first occurrence of `sub`, returning the
parts before and after it, or `none` when `sub` does not occur. -/
def splitFirst : List Char → List Char → Option (List Char × List Char)
  | hay, sub =>
    if sub.isPrefixOf hay then some ([], hay.drop sub.length)
    else
      match hay with
      | [] => none
      | c :: t =>
        match splitFirst t sub with
        | some (pre, post) => some (c :: pre, post)
        | none => none

/-- Model of WHATWG URL well-formedness as used by the JavaScript `URL`
constructor: a scheme separator with nonempty scheme and remainder.
`new URL(s)` succeeds exactly on such strings and throws otherwise. -/
def isWellFormedURL (s : String) : Bool :=
  match splitFirst s.data "://".data with
  | some (scheme, rest) => !scheme.isEmpty && !rest.isEmpty
  | none => false

/-- A JavaScript `URL` object: by construction it only ever holds a string
that the `URL` constructor accepted. -/
structure JsURL where
  href : String
  wf : isWellFormedURL href = true

/-- Model of the JavaScript `URL` constructor: returns the object on a
well-formed string and throws (`malformedURL`) otherwise. -/
def newURL (s : String) : Except EditorError JsURL :=
  if h : isWellFormedURL s = true then .ok ⟨s, h⟩ else .error .malformedURL

/-- The editor surface eventually operated on: the top-level frame
(`page.mainFrame()`) or the Gutenframe iframe's content frame. -/
inductive EditorFrame where
  | main
  | iframe
deriving DecidableEq, Repr

/-- Observable behaviour of everything outside the orchestrator: the page
URL, the iframe locator, the viewport environment variable, the panel
components' read-backs and close outcomes, and the scheduling choices that
decide which arm of each `Promise.race` settles first. -/
structure Env where
  /-- `this.page.url()` at the time `getEditorFrame` runs. -/
  url : String
  /-- Outcome of `locator(editorFrame).elementHandle({ timeout: 105000 })`. -/
  iframeHandle : Settle Unit
  /-- `envVariables.VIEWPORT_NAME`. -/
  viewportName : String
  /-- Title observed by `editorGutenbergComponent.getTitle()` after
  `enterTitle(text)` typed `text`. -/
  getTitle : String → String
  /-- Body text observed by `editorGutenbergComponent.getText()` after
  `enterText(text)` typed `text`. -/
  getText : String → String
  /-- `editorPublishPanelComponent.panelIsOpen()`. -/
  panelIsOpen : Bool
  /-- Outcome of `editorPublishPanelComponent.getPublishedURL()`. -/
  panelURL : Settle JsURL
  /-- Outcome of the toast link's `getAttribute('href')`: the element may
  never appear (timeout), or appear with a null or string attribute. -/
  toastHref : Settle (Option String)
  /-- In the `publish` race, whether the publish-panel source settles before
  the toast source. -/
  panelWinsRace : Bool
  /-- Outcome of `editorPublishPanelComponent.closePanel()`. -/
  closePublishPanelRes : Except EditorError Unit
  /-- Outcome of `editorNavSidebarComponent.closeSidebar()`. -/
  closeNavSidebarRes : Except EditorError Unit
  /-- Outcome of `editorToolbarComponent.closeSettings()`. -/
  closeSettingsRes : Except EditorError Unit
  /-- Whether a navigation matching `**/home/**` ever completes. -/
  navHome : Bool
  /-- Whether a navigation matching `**/posts/**` ever completes. -/
  navPosts : Bool
  /-- Whether a navigation matching `**/pages/**` ever completes. -/
  navPages : Bool
  /-- Whether the snackbar "Post reverted to draft." appears within the
  bounded wait of `waitForSelector`. -/
  draftNotice : Bool
  /-- Whether `.entry-content` becomes visible when visiting the published
  post (used only by the `visit` branch of `publish`). -/
  postVisible : Bool

/-- Result of one orchestrator method: the ordered trace of UI interactions
it issued, and its outcome. -/
structure Res (α : Type) where
  trace : List Act
  out : Except EditorError α

/-- White-space characters stripped by `String.prototype.trim` (ASCII
subset). -/
def jsWhitespace (c : Char) : Bool :=
  c = ' ' || c = '\t' || c = '\n' || c = '\r' || c = '\x0b' || c = '\x0c'

/-- Model of `String.prototype.trim`: removes leading and trailing
white space. -/
def jsTrim (s : String) : String :=
  String.mk (((s.data.dropWhile jsWhitespace).reverse.dropWhile jsWhitespace).reverse)

/-- Model of `String.prototype.includes`. -/
def strIncludes (s sub : String) : Bool :=
  (splitFirst s.data sub.data).isSome

/-- `EditorPage.getEditorFrame`, parametrised by `requiresGutenframe`
(`req`).  When not strict and the URL contains `/wp-admin`, the top frame is
returned immediately with no iframe search.  Otherwise the iframe is located
within a bounded wait; on failure the method throws if strict, and otherwise
logs a notice and returns the top frame. -/
def getEditorFrame (env : Env) (req : Bool) : Res EditorFrame :=
  if !req && strIncludes env.url "/wp-admin" then
    ⟨[], .ok .main⟩
  else
    match env.iframeHandle with
    | .value _ => ⟨[.locateEditorIframe], .ok .iframe⟩
    | .timeout =>
      if req then
        ⟨[.locateEditorIframe], .error .surfaceNotFound⟩
      else
        ⟨[.locateEditorIframe,
          .consoleInfo "Could not locate editor iframe. Returning the top-level frame instead"],
         .ok .main⟩

/-- `EditorPage.enterTitle`: types the title, reads it back, and throws a
verification error when the observed title differs from the trimmed input
(the read-back itself is compared untrimmed). -/
def enterTitle (env : Env) (title : String) : Res Unit :=
  let enteredTitle := env.getTitle title
  let sanitizedTitle := jsTrim title
  ⟨[.enterTitleField title, .readTitleField],
   if enteredTitle != sanitizedTitle then
     .error (.verificationMismatch enteredTitle sanitizedTitle)
   else
     .ok ()⟩

/-- The string the mismatch branch of `EditorPage.enterText` builds: the
source evaluates this template literal as a bare expression statement and
discards it, so it is dead code. -/
def enterTextDeadMessage (env : Env) (text : String) : Option String :=
  if text != env.getText text then
    some ("Failed to verify entered text: got " ++ env.getText text ++ ", expected " ++ text)
  else
    none

/-- `EditorPage.enterText`: types the text and reads it back; the
verification branch only constructs `enterTextDeadMessage` without throwing
or returning it, so the method always completes normally. -/
def enterText (env : Env) (text : String) : Res Unit :=
  let _dead := enterTextDeadMessage env text
  ⟨[.enterTextBody text, .readTextBody], .ok ()⟩

/-- `EditorPage.addBlock`: resets the block selection, opens the inserter,
searches, selects the first result, grabs the inserted block's handle, and
explicitly closes the inserter only when the viewport is not mobile (in the
mobile viewport the inserter auto-closes). -/
def addBlock (env : Env) (blockName blockEditorSelector : String) : Res Unit :=
  ⟨[.resetSelectedBlock, .openBlockInserter, .searchBlockInserter blockName,
    .selectBlockInserterResult blockName,
    .getSelectedBlockElementHandle blockEditorSelector] ++
      (if env.viewportName != "mobile" then [.closeBlockInserter] else []),
   .ok ()⟩

/-- Status of one promise inside `Promise.allSettled`. -/
inductive SettledStatus where
  | fulfilled
  | rejected
deriving DecidableEq, Repr

/-- Model of `Promise.allSettled`: every promise is awaited, each rejection
is recorded as a status instead of propagating, and the combinator itself
always fulfills. -/
def allSettled {ε α : Type} (ps : List (Except ε α)) : List SettledStatus :=
  ps.map fun p => match p with
    | .ok _ => .fulfilled
    | .error _ => .rejected

/-- `EditorPage.closeAllPanels`: runs the three panel closes under
`Promise.allSettled`, so all three are attempted and no individual failure
aborts the siblings or the method. -/
def closeAllPanels (env : Env) : Res Unit :=
  let _settled :=
    allSettled [env.closePublishPanelRes, env.closeNavSidebarRes, env.closeSettingsRes]
  ⟨[.closePublishPanel, .closeNavSidebar, .closeSettings], .ok ()⟩

/-- The ambiguous-tab resolution shared by the settings workflows:
`Promise.race` issues the `Page` tab click and the `Post` tab click together
and accepts whichever succeeds first. -/
def tabRaceActs : List Act :=
  [.clickTab "Page", .clickTab "Post"]

/-- `EditorPage.setArticleVisibility`: tab race, expand
"Status & Visibility", then drive the visibility sub-controls. -/
def setArticleVisibility (env : Env) (visibility : String) (password : Option String) :
    Res Unit :=
  let _ := env
  ⟨tabRaceActs ++
    [.expandSection "Status & Visibility", .openVisibilityOptions,
     .selectVisibility visibility password, .closeVisibilityOptions],
   .ok ()⟩

/-- `EditorPage.schedule`: tab race, expand "Status & Visibility", then set
the schedule details. -/
def schedule (env : Env) (date : String) : Res Unit :=
  let _ := env
  ⟨tabRaceActs ++
    [.expandSection "Status & Visibility", .openSchedule, .setScheduleDetails date,
     .closeSchedule],
   .ok ()⟩

/-- `EditorPage.selectCategory`: tab race, expand "Categories", then check
the category. -/
def selectCategory (env : Env) (name : String) : Res Unit :=
  let _ := env
  ⟨tabRaceActs ++ [.expandSection "Categories", .checkCategory name], .ok ()⟩

/-- `EditorPage.addTag`: tab race, expand "Tags", then enter the tag. -/
def addTag (env : Env) (tag : String) : Res Unit :=
  let _ := env
  ⟨tabRaceActs ++ [.expandSection "Tags", .enterTag tag], .ok ()⟩

/-- `EditorPage.setURLSlug`: tab race, expand "Permalink", then enter the
slug. -/
def setURLSlug (env : Env) (slug : String) : Res Unit :=
  let _ := env
  ⟨tabRaceActs ++ [.expandSection "Permalink", .enterUrlSlug slug], .ok ()⟩

/-- `EditorPage.getPublishedURLFromToast`: resolves the editor frame, waits
for the toast link and reads its `href`, then builds a `URL` from it.  A
missing element is a timeout; a null attribute reaches the `URL` constructor
as the string "null" (the `as string` cast) and throws. -/
def getPublishedURLFromToast (env : Env) (req : Bool) : Except EditorError JsURL :=
  match (getEditorFrame env req).out with
  | .error e => .error e
  | .ok _ =>
    match env.toastHref with
    | .timeout => .error .timeout
    | .value none => newURL "null"
    | .value (some href) => newURL href

/-- Outcome with which the publish-panel source of the `publish` race
eventually settles. -/
def publishPanelSource (env : Env) : Except EditorError JsURL :=
  match env.panelURL with
  | .value u => .ok u
  | .timeout => .error .timeout

/-- `EditorPage.publish` with the default `visit: false`: clicks the toolbar
publish action, drives the publish checklist panel when it is open, then
races the panel readout against the toast link and returns whichever settles
first. -/
def publish (env : Env) (req : Bool) : Res JsURL :=
  let pre := [Act.clickPublish] ++ (if env.panelIsOpen then [Act.publishPanelPublish] else [])
  let publishedURL :=
    if env.panelWinsRace then publishPanelSource env
    else getPublishedURLFromToast env req
  ⟨pre, publishedURL⟩

/-- `EditorPage.unpublish`: switches to draft, resolves the editor frame,
clicks the confirmation dialog's OK button, then waits for the
"Post reverted to draft." snackbar; the wait rejects with a timeout when the
notice never appears. -/
def unpublish (env : Env) (req : Bool) : Res Unit :=
  let fr := getEditorFrame env req
  match fr.out with
  | .error e => ⟨[Act.switchToDraft] ++ fr.trace, .error e⟩
  | .ok _ =>
    ⟨[Act.switchToDraft] ++ fr.trace ++
      [.clickDialogOK, .waitForSnackbar "Post reverted to draft."],
     if env.draftNotice then .ok () else .error .timeout⟩

/-- `EditorPage.previewAsMobile`: throws a mode-mismatch error before any UI
interaction unless the viewport is mobile; otherwise opens the mobile
preview. -/
def previewAsMobile (env : Env) : Res Unit :=
  if env.viewportName != "mobile" then
    ⟨[], .error (.modeMismatch env.viewportName)⟩
  else
    ⟨[.openMobilePreview], .ok ()⟩

/-- `EditorPage.previewAsDesktop`: throws a mode-mismatch error before any
UI interaction when the viewport is mobile; otherwise opens the desktop
preview at the target size. -/
def previewAsDesktop (env : Env) (target : String) : Res Unit :=
  if env.viewportName == "mobile" then
    ⟨[], .error (.modeMismatch env.viewportName)⟩
  else
    ⟨[.openDesktopPreview target], .ok ()⟩

/-- `EditorPage.exitEditor`: opens the navigation sidebar, races the three
destination navigation waits, and triggers the viewport-specific exit action
(Navbar "My Sites" on mobile, nav-sidebar exit otherwise); the whole method
resolves when the first matching navigation completes, and rejects with a
timeout when none of the three destinations is ever reached. -/
def exitEditor (env : Env) : Res Unit :=
  let exitAct := if env.viewportName == "mobile" then Act.clickMySites else Act.navSidebarExit
  ⟨[.openNavSidebar, exitAct],
   if env.navHome || env.navPosts || env.navPages then .ok () else .error .timeout⟩

/-- A concrete environment used to instantiate the theorems: desktop
viewport, a Calypso URL, a locatable iframe, faithful title read-back, a
divergent body read-back, and both publish-URL sources unavailable. -/
def envW : Env where
  url := "https://wordpress.com/post/example.wordpress.com"
  iframeHandle := .value ()
  viewportName := "desktop"
  getTitle := fun t => jsTrim t
  getText := fun _ => "observed body"
  panelIsOpen := true
  panelURL := .timeout
  toastHref := .timeout
  panelWinsRace := true
  closePublishPanelRes := .error .timeout
  closeNavSidebarRes := .ok ()
  closeSettingsRes := .error .timeout
  navHome := true
  navPosts := false
  navPages := false
  draftNotice := false
  postVisible := true

/-- C1: for every input string `s`, `enterTitle(s)` writes `s` into the title
field and reads it back; it completes normally exactly when the observed
title equals `trim(s)`, and otherwise fails with a verification-mismatch
error comparing the trimmed input against the untrimmed read-back. -/
theorem c1_enterTitle_roundtrip_verification (env : Env) (s : String) :
    (enterTitle env s).trace = [.enterTitleField s, .readTitleField] ∧
    ((enterTitle env s).out = .ok () ↔ env.getTitle s = jsTrim s) ∧
    (env.getTitle s ≠ jsTrim s →
      (enterTitle env s).out =
        .error (.verificationMismatch (env.getTitle s) (jsTrim s))) := by
  refine ⟨rfl, ?_, ?_⟩
  · by_cases h : env.getTitle s = jsTrim s <;> simp [enterTitle, h]
  · intro h
    simp [enterTitle, h]

/-- Witness for C1: a read-back of "Hello!" against input "Hello" raises the
verification mismatch. -/
theorem c1_enterTitle_roundtrip_verification_witness :
    (enterTitle { envW with getTitle := fun _ => "Hello!" } "Hello").out =
      .error (.verificationMismatch "Hello!" "Hello") :=
  (c1_enterTitle_roundtrip_verification { envW with getTitle := fun _ => "Hello!" }
    "Hello").2.2 (by decide)

/-- C2: whenever the body read-back differs from the input, `enterText`
still completes normally: the verification branch only builds the mismatch
message as a dead statement and never raises or returns it. -/
theorem c2_enterText_silent_verification (env : Env) (text : String)
    (h : env.getText text ≠ text) :
    (enterText env text).trace = [.enterTextBody text, .readTextBody] ∧
    (enterText env text).out = .ok () ∧
    enterTextDeadMessage env text =
      some ("Failed to verify entered text: got " ++ env.getText text ++
        ", expected " ++ text) := by
  refine ⟨rfl, rfl, ?_⟩
  simp [enterTextDeadMessage, Ne.symm h]

/-- Witness for C2: with read-back "other" for input "hello", `enterText`
completes normally. -/
theorem c2_enterText_silent_verification_witness :
    (enterText { envW with getText := fun _ => "other" } "hello").out = .ok () :=
  (c2_enterText_silent_verification { envW with getText := fun _ => "other" }
    "hello" (by decide)).2.1

/-- C3: any URL `publish` returns is well-formed; whichever of the two race
sources settles first with a value supplies the returned URL; and when both
the panel readout and the toast link are unavailable, `publish` fails with a
timeout instead of returning a null or malformed locator. -/
theorem c3_publish_race_url (env : Env) (req : Bool) :
    (∀ u, (publish env req).out = .ok u → isWellFormedURL u.href = true) ∧
    (∀ u, env.panelWinsRace = true → env.panelURL = .value u →
      (publish env req).out = .ok u) ∧
    (∀ s (h : isWellFormedURL s = true), env.panelWinsRace = false →
      (getEditorFrame env req).out.isOk = true →
      env.toastHref = .value (some s) →
      (publish env req).out = .ok ⟨s, h⟩) ∧
    (env.panelURL = .timeout → env.toastHref = .timeout →
      (getEditorFrame env req).out.isOk = true →
      (publish env req).out = .error .timeout) := by
  refine ⟨fun u _ => u.wf, ?_, ?_, ?_⟩
  · intro u hw hp
    simp [publish, publishPanelSource, hw, hp]
  · intro s h hw hfr ht
    cases hout : (getEditorFrame env req).out with
    | error e => simp [Except.isOk, Except.toBool, hout] at hfr
    | ok f =>
      simp [publish, hw, getPublishedURLFromToast, hout, ht, newURL, h]
  · intro hp ht hfr
    cases hout : (getEditorFrame env req).out with
    | error e => simp [Except.isOk, Except.toBool, hout] at hfr
    | ok f =>
      by_cases hw : env.panelWinsRace <;>
        simp [publish, publishPanelSource, getPublishedURLFromToast, hw, hp, ht, hout]

/-- Witness for C3: with both sources unavailable in `envW` and the frame
resolvable, `publish` fails with a timeout. -/
theorem c3_publish_race_url_witness :
    (publish envW false).out = .error .timeout :=
  (c3_publish_race_url envW false).2.2.2 rfl rfl rfl

/-- C4: with strict mode off and an administrative URL, `getEditorFrame`
returns the top frame immediately without any iframe search; when the iframe
cannot be located, it throws if strict and otherwise returns the top frame
after logging a diagnostic notice. -/
theorem c4_getEditorFrame_resolution (env : Env) :
    (strIncludes env.url "/wp-admin" = true →
      getEditorFrame env false = ⟨[], .ok .main⟩) ∧
    (env.iframeHandle = .timeout →
      (getEditorFrame env true).out = .error .surfaceNotFound) ∧
    (env.iframeHandle = .timeout → strIncludes env.url "/wp-admin" = false →
      getEditorFrame env false =
        ⟨[.locateEditorIframe,
          .consoleInfo "Could not locate editor iframe. Returning the top-level frame instead"],
         .ok .main⟩) := by
  refine ⟨?_, ?_, ?_⟩
  · intro h
    simp [getEditorFrame, h]
  · intro h
    simp [getEditorFrame, h]
  · intro h hu
    simp [getEditorFrame, h, hu]

/-- Witness for C4: a missing iframe under strict mode yields the
surface-not-found error. -/
theorem c4_getEditorFrame_resolution_witness :
    (getEditorFrame { envW with iframeHandle := .timeout } true).out =
      .error .surfaceNotFound :=
  (c4_getEditorFrame_resolution { envW with iframeHandle := .timeout }).2.1 rfl

/-- C5: `previewAsMobile` under a non-mobile viewport and `previewAsDesktop`
under the mobile viewport each fail with a mode-mismatch error with an empty
trace, i.e. before issuing any UI interaction. -/
theorem c5_preview_mode_mismatch (env1 env2 : Env) (target : String)
    (h1 : env1.viewportName ≠ "mobile") (h2 : env2.viewportName = "mobile") :
    previewAsMobile env1 = ⟨[], .error (.modeMismatch env1.viewportName)⟩ ∧
    previewAsDesktop env2 target = ⟨[], .error (.modeMismatch env2.viewportName)⟩ := by
  constructor
  · simp [previewAsMobile, h1]
  · simp [previewAsDesktop, h2]

/-- Witness for C5: the desktop-viewport environment rejects
`previewAsMobile` and the mobile-viewport environment rejects
`previewAsDesktop`, both with empty traces. -/
theorem c5_preview_mode_mismatch_witness :
    previewAsMobile envW = ⟨[], .error (.modeMismatch "desktop")⟩ ∧
    previewAsDesktop { envW with viewportName := "mobile" } "Desktop" =
      ⟨[], .error (.modeMismatch "mobile")⟩ :=
  c5_preview_mode_mismatch envW { envW with viewportName := "mobile" } "Desktop"
    (by decide) rfl

/-- C6: `addBlock` issues the selection reset, inserter open, search, result
selection and block-handle lookup in that order, and appends an explicit
inserter close exactly when the viewport is not the mobile one. -/
theorem c6_addBlock_inserter_close (env : Env) (name sel : String) :
    (addBlock env name sel).trace =
      [.resetSelectedBlock, .openBlockInserter, .searchBlockInserter name,
       .selectBlockInserterResult name, .getSelectedBlockElementHandle sel] ++
        (if env.viewportName = "mobile" then [] else [.closeBlockInserter]) ∧
    (Act.closeBlockInserter ∈ (addBlock env name sel).trace ↔
      env.viewportName ≠ "mobile") := by
  by_cases h : env.viewportName = "mobile" <;> simp [addBlock, h]

/-- C7: after opening the navigation surface and triggering the
viewport-specific exit action, `exitEditor` resolves as soon as any one of
the three destination URL patterns is observed, even when the other two
never occur. -/
theorem c7_exitEditor_first_destination (env : Env)
    (h : (env.navHome || env.navPosts || env.navPages) = true) :
    (exitEditor env).out = .ok () ∧
    (exitEditor env).trace =
      [.openNavSidebar,
       if env.viewportName = "mobile" then Act.clickMySites else Act.navSidebarExit] := by
  constructor
  · simp [exitEditor, h]
  · by_cases hv : env.viewportName = "mobile" <;> simp [exitEditor, hv]

/-- Witness for C7: in `envW` only the `**/home/**` destination ever occurs,
and `exitEditor` still resolves. -/
theorem c7_exitEditor_first_destination_witness :
    envW.navPosts = false ∧ envW.navPages = false ∧ (exitEditor envW).out = .ok () :=
  ⟨rfl, rfl, (c7_exitEditor_first_destination envW rfl).1⟩

/-- C8: each of the five settings workflows starts with the Page-vs-Post tab
race and only then expands its settings section and applies its value. -/
theorem c8_settings_workflows_tab_race (env : Env)
    (v : String) (pw : Option String) (date name tag slug : String) :
    (setArticleVisibility env v pw).trace =
      tabRaceActs ++
        [.expandSection "Status & Visibility", .openVisibilityOptions,
         .selectVisibility v pw, .closeVisibilityOptions] ∧
    (schedule env date).trace =
      tabRaceActs ++
        [.expandSection "Status & Visibility", .openSchedule,
         .setScheduleDetails date, .closeSchedule] ∧
    (selectCategory env name).trace =
      tabRaceActs ++ [.expandSection "Categories", .checkCategory name] ∧
    (addTag env tag).trace =
      tabRaceActs ++ [.expandSection "Tags", .enterTag tag] ∧
    (setURLSlug env slug).trace =
      tabRaceActs ++ [.expandSection "Permalink", .enterUrlSlug slug] :=
  ⟨rfl, rfl, rfl, rfl, rfl⟩

/-- C9: `closeAllPanels` attempts all three panel closes and always
completes normally, whatever combination of the individual close operations
fails. -/
theorem c9_closeAllPanels_exception_tolerant (env : Env) :
    (closeAllPanels env).trace =
      [.closePublishPanel, .closeNavSidebar, .closeSettings] ∧
    (closeAllPanels env).out = .ok () :=
  ⟨rfl, rfl⟩

/-- C10: `unpublish` switches to draft, then accepts the confirmation
dialog, then waits for the "Post reverted to draft." notice, completing when
the notice appears within the bounded wait and failing with a timeout when
it does not. -/
theorem c10_unpublish_sequence (env : Env) (req : Bool)
    (h : (getEditorFrame env req).out.isOk = true) :
    (unpublish env req).trace =
      [Act.switchToDraft] ++ (getEditorFrame env req).trace ++
        [.clickDialogOK, .waitForSnackbar "Post reverted to draft."] ∧
    (env.draftNotice = true → (unpublish env req).out = .ok ()) ∧
    (env.draftNotice = false → (unpublish env req).out = .error .timeout) := by
  cases hout : (getEditorFrame env req).out with
  | error e => simp [Except.isOk, Except.toBool, hout] at h
  | ok f =>
    refine ⟨?_, ?_, ?_⟩
    · simp [unpublish, hout]
    · intro hd
      simp [unpublish, hout, hd]
    · intro hd
      simp [unpublish, hout, hd]

/-- Witness for C10: in `envW` the notice never appears, and `unpublish`
fails with a timeout. -/
theorem c10_unpublish_sequence_witness :
    (unpublish envW false).out = .error .timeout :=
  (c10_unpublish_sequence envW false rfl).2.2 rfl
